import Mathlib

/-!
Verification of the Provider Discovery & Routing Engine
(`backend/app/llm/providers.py` and `backend/app/llm/router.py`).

The Python modules are shallowly embedded: module-level mutable globals
(`_LAST_DISCOVERED`, `_LAST_DISCOVERY_TIME`, `_VERIFIED_MODELS`, `os.environ`)
become an explicit `RegistryState` record threaded through every function;
the vendor network clients (out of scope, black boxes per the spec) become an
`Oracle` mapping a provider id to the outcome of its `verify_model` probe and
of its `run_*` analysis call; Python exceptions become `Except` values; and
Python strings are modelled as Lean `String`s manipulated through their
underlying character lists (Python `str` operations are over code points, as
are Lean `List Char` operations).

Every definition is translated from the source files; comments on each
definition cite the function it embeds.
-/

deriving instance DecidableEq for Except

/-- Embeds `AvailabilityStatus` (providers.py): status of a provider/model. -/
inductive AvailabilityStatus where
  | available
  | unavailable
  | rate_limited
  | error
  | assumed
deriving DecidableEq, Repr

/-- Embeds the dataclass `LLMProvider` (providers.py): one configured provider
option. `latency_ms` is `Option` since the field defaults to `None`. -/
structure LLMProvider where
  id : String
  label : String
  provider : String
  model : String
  api_key : String
  status : AvailabilityStatus := .unavailable
  latency_ms : Option Nat := none
  speed : String := "Standard"
  error_message : Option String := none
deriving DecidableEq, Repr

/-- Abstract stand-in for `IssueAnalysis` (schemas.py) — the analysis payload
is out of scope, only its identity matters to the router. -/
structure IssueAnalysis where
  payload : Nat
deriving DecidableEq, Repr

/-- The module-level mutable globals of providers.py, made explicit:
`env` models `os.environ` (a flat key/value store read by the scan),
`lastDiscovered` models `_LAST_DISCOVERED`, `lastDiscoveryTime` models
`_LAST_DISCOVERY_TIME`, and `verifiedModels` models `_VERIFIED_MODELS`
(an insertion-ordered dict, here an association list). -/
structure RegistryState where
  env : List (String × String)
  lastDiscovered : List LLMProvider
  lastDiscoveryTime : Nat
  verifiedModels : List (String × AvailabilityStatus)
deriving DecidableEq, Repr

/-- Python whitespace characters removed by `str.strip()` (ASCII subset). -/
def pyIsSpace (c : Char) : Bool :=
  c = ' ' || c = '\t' || c = '\n' || c = '\r' || c = '\x0b' || c = '\x0c'

/-- Character-list model of Python `str.strip()`. -/
def pyStripChars (cs : List Char) : List Char :=
  ((cs.dropWhile pyIsSpace).reverse.dropWhile pyIsSpace).reverse

/-- Model of Python `str.strip()`. -/
def pyStrip (s : String) : String := String.mk (pyStripChars s.data)

/-- Model of Python `str.lower()` (ASCII case folding, as all keys and values
the program compares are ASCII). -/
def pyLower (s : String) : String := String.mk (s.data.map Char.toLower)

/-- Whether `needle` occurs as a contiguous subsequence of `hay`; model of
Python's `in` operator on strings. -/
def seqContains (needle : List Char) : List Char → Bool
  | [] => needle.isEmpty
  | c :: rest => needle.isPrefixOf (c :: rest) || seqContains needle rest

/-- Model of Python `needle in hay` for strings. -/
def strContains (hay needle : String) : Bool := seqContains needle.data hay.data

/-- Whether a character sequence is free of newlines — the set matched by the
regex `.*` (DOTALL is not set anywhere in the source). -/
def noNl (cs : List Char) : Bool := cs.all (fun c => c ≠ '\n')

/-- Whether `cs` is matched by the regex fragment `.*$` (without MULTILINE,
`$` matches at the end of the string or just before a final newline). -/
def dollarTail (cs : List Char) : Bool :=
  noNl cs ||
  (match cs.getLast? with
   | some c => c = '\n' && noNl cs.dropLast
   | none => false)

/-- Whether `cs` can be split as `pre ++ needle ++ post` with `pre` matched by
`.*` and `post` matched by `.*$` — used for the patterns of the form
`^A.*B.*$`. -/
def scanSplit (needle : List Char) : List Char → Bool
  | [] => needle.isEmpty
  | c :: rest =>
    (needle.isPrefixOf (c :: rest) && dollarTail ((c :: rest).drop needle.length)) ||
    (c ≠ '\n' && scanSplit needle rest)

/-- Regex `^your_.*_here$` from `PLACEHOLDER_PATTERNS` (providers.py). -/
def patYourHere (cs : List Char) : Bool :=
  "your_".data.isPrefixOf cs &&
  (let rest := cs.drop 5
   ("_here".data.isSuffixOf rest && noNl (rest.take (rest.length - 5))) ||
   ("_here\n".data.isSuffixOf rest && noNl (rest.take (rest.length - 6))))

/-- Regex `^sk-your.*$` from `PLACEHOLDER_PATTERNS`. -/
def patSkYour (cs : List Char) : Bool :=
  "sk-your".data.isPrefixOf cs && dollarTail (cs.drop 7)

/-- Regex `^your-.*-key.*$` from `PLACEHOLDER_PATTERNS`. -/
def patYourKey (cs : List Char) : Bool :=
  "your-".data.isPrefixOf cs && scanSplit "-key".data (cs.drop 5)

/-- Regex `^placeholder.*$` from `PLACEHOLDER_PATTERNS`. -/
def patPlaceholderWord (cs : List Char) : Bool :=
  "placeholder".data.isPrefixOf cs && dollarTail (cs.drop 11)

/-- Regex `^xxx+$` from `PLACEHOLDER_PATTERNS`. -/
def patXxx (cs : List Char) : Bool :=
  (cs.length ≥ 3 && cs.all (fun c => c = 'x')) ||
  (cs.getLast? = some '\n' && cs.dropLast.length ≥ 3 && cs.dropLast.all (fun c => c = 'x'))

/-- Regex `^test.*key.*$` from `PLACEHOLDER_PATTERNS`. -/
def patTestKey (cs : List Char) : Bool :=
  "test".data.isPrefixOf cs && scanSplit "key".data (cs.drop 4)

/-- Disjunction of the six `PLACEHOLDER_PATTERNS`, in source order, applied
with `re.match` (anchored at the start; all six patterns are anchored at both
ends anyway). -/
def placeholderPatternMatch (cs : List Char) : Bool :=
  patYourHere cs || patSkYour cs || patYourKey cs || patPlaceholderWord cs ||
  patXxx cs || patTestKey cs

/-- Embeds `_is_placeholder` (providers.py lines 164-170): empty values,
values whose lowered-stripped form is shorter than 8 characters, and values
matching one of the placeholder patterns are placeholders. -/
def is_placeholder (value : String) : Bool :=
  if value = "" then true
  else
    let val := pyStrip (pyLower value)
    if val.length < 8 then true
    else placeholderPatternMatch val.data

/-- Decimal value of a digit list (used by the model of Python `int`). -/
def digitsToNat (cs : List Char) : Nat :=
  cs.foldl (fun n c => n * 10 + (c.toNat - 48)) 0

/-- Model of Python `int(s)` restricted to non-negative literals: strips
whitespace and requires a non-empty run of digits; anything else raises
`ValueError` (`none` here). The only string this program ever feeds it is a
captured regex group consisting of a literal backslash followed by letters
`d`, which always fails to parse. -/
def pyIntNat? (s : String) : Option Nat :=
  let cs := pyStripChars s.data
  if cs ≠ [] && cs.all (fun c => c.isDigit) then some (digitsToNat cs) else none

/-- Embeds the compiled pattern `rf"^{prefix}_API_KEY(_(\\d+))?$"` with
`re.IGNORECASE` (providers.py line 176). Because the source writes the digit
class as `\\d` inside a raw f-string, the compiled regex contains a literal
backslash followed by the letter `d`: the optional suffix group therefore only
matches an underscore, a backslash, then one or more letters `d` — never a
numeric suffix like `_2`. Returns `some none` for a match without the suffix
group and `some (some g)` with the text captured by group 2 otherwise. -/
def apiKeyMatch (pfx name : String) : Option (Option String) :=
  let base := (pyLower (pfx ++ "_API_KEY")).data
  let n := (pyLower name).data
  if n = base then some none
  else if (base ++ ['_', '\\']).isPrefixOf n
      && (n.drop (base.length + 2)) ≠ []
      && (n.drop (base.length + 2)).all (fun c => c = 'd') then
    some (some (String.mk ('\\' :: n.drop (base.length + 2))))
  else none

/-- Embeds the compiled pattern `rf"^{prefix}_TOKEN$"` with `re.IGNORECASE`
(providers.py line 177). -/
def tokenMatch (pfx name : String) : Bool :=
  pyLower name = pyLower (pfx ++ "_TOKEN")

/-- Stable insertion of `x` after every element strictly smaller under `lt`
(so the first position where `x` does not strictly exceed the element). -/
def stableInsert (lt : α → α → Bool) (x : α) : List α → List α
  | [] => [x]
  | y :: ys => if lt y x then y :: stableInsert lt x ys else x :: y :: ys

/-- Stable sort by a strict comparison, modelling Python's stable `sorted` /
`list.sort`. -/
def stableSort (lt : α → α → Bool) : List α → List α
  | [] => []
  | x :: xs => stableInsert lt x (stableSort lt xs)

/-- Guarded slot registration inside `_scan_env_for_keys` (providers.py lines
184-186 and 189-191): append `(num, value)` and record the slot unless the
slot number was already seen. `rs` is the pair (results, seen_nums). -/
def addSlot (num : Nat) (v : String) (rs : List (Nat × String) × List Nat) :
    List (Nat × String) × List Nat :=
  if num ∈ rs.2 then rs else (rs.1 ++ [(num, v)], num :: rs.2)

/-- Body of the inner loop of `_scan_env_for_keys` (providers.py lines
178-192) for one environment item under one prefix: skip placeholder values;
a key matching the API-key pattern registers its slot (defaulting to 1 when
the optional suffix group is absent, `int(suffix)` otherwise — which raises
`ValueError` on the only texts the buggy group can capture); otherwise a key
matching the token pattern registers slot 1. The accumulator carries
(results, seen_nums), shared across the prefixes of one call. -/
def scanStep (pfx : String) (acc : Except String (List (Nat × String) × List Nat))
    (kv : String × String) : Except String (List (Nat × String) × List Nat) :=
  match acc with
  | .error e => .error e
  | .ok rs =>
    if is_placeholder kv.2 then .ok rs
    else
      match apiKeyMatch pfx kv.1, kv.2 != "" with
      | some none, true => .ok (addSlot 1 kv.2 rs)
      | some (some sfx), true =>
        match pyIntNat? sfx with
        | some num => .ok (addSlot num kv.2 rs)
        | none => .error ("ValueError: invalid literal for int() with base 10: " ++ sfx)
      | _, _ =>
        if tokenMatch pfx kv.1 && kv.2 != "" then .ok (addSlot 1 kv.2 rs) else .ok rs

/-- Embeds `_scan_env_for_keys` (providers.py lines 172-193): for each prefix
in order, walk the environment in order, collecting `(slot, value)` pairs;
finally sort ascending by slot number (Python's stable `sorted`). A
`ValueError` from `int(...)` propagates as `.error`. -/
def scan_env_for_keys (pfxs : List String) (env : List (String × String)) :
    Except String (List (Nat × String)) :=
  match pfxs.foldl (fun acc pfx => env.foldl (scanStep pfx) acc) (.ok ([], [])) with
  | .error e => .error e
  | .ok rs => .ok (stableSort (fun a b => a.1 < b.1) rs.1)

/-- One entry of the list built by `_get_configured_keys` (providers.py). -/
structure PConfig where
  ptype : String
  num : Nat
  key : String
deriving DecidableEq, Repr

/-- The `add` helper inside `_get_configured_keys`. -/
def addConfigs (t : String) (creds : List (Nat × String)) : List PConfig :=
  creds.map (fun c => ⟨t, c.1, c.2⟩)

/-- Embeds `_get_configured_keys` (providers.py lines 196-209): scans the four
provider families in a fixed order; anthropic aliases two prefixes, as does
huggingface. -/
def get_configured_keys (env : List (String × String)) : Except String (List PConfig) := do
  let g ← scan_env_for_keys ["GEMINI"] env
  let o ← scan_env_for_keys ["OPENAI"] env
  let a ← scan_env_for_keys ["ANTHROPIC", "CLAUDE"] env
  let h ← scan_env_for_keys ["HF", "HUGGINGFACE"] env
  return addConfigs "gemini" g ++ addConfigs "openai" o ++
    addConfigs "anthropic" a ++ addConfigs "huggingface" h

/-- Embeds `CANDIDATE_MODELS` (providers.py lines 109-131): the static
candidate-model catalog per provider type, as `(model id, display name)`. -/
def CANDIDATE_MODELS (ptype : String) : List (String × String) :=
  if ptype = "gemini" then
    [("gemini-flash-latest", "Gemini Flash (Latest)"),
     ("gemini-2.5-flash", "Gemini 2.5 Flash"),
     ("gemini-2.5-pro", "Gemini 2.5 Pro")]
  else if ptype = "openai" then
    [("gpt-4o", "GPT-4o"),
     ("gpt-4o-mini", "GPT-4o Mini"),
     ("o1-mini", "o1 Mini"),
     ("gpt-4.5-preview", "GPT-4.5 Preview")]
  else if ptype = "anthropic" then
    [("claude-3-5-sonnet-20241022", "Claude 3.5 Sonnet"),
     ("claude-3-opus-20240229", "Claude 3 Opus"),
     ("claude-3-haiku-20240307", "Claude 3 Haiku")]
  else if ptype = "huggingface" then
    [("deepseek-ai/DeepSeek-R1", "DeepSeek R1"),
     ("deepseek-ai/DeepSeek-R1-Distill-Llama-8B", "DeepSeek R1 Distill"),
     ("meta-llama/Llama-3.1-8B-Instruct", "Llama 3.1 8B")]
  else []

/-- Embeds `ESTIMATED_LATENCY_MS` (providers.py lines 48-68). -/
def ESTIMATED_LATENCY_MS : List (String × Nat) :=
  [("gemini-flash-latest", 800), ("gemini-2.5-flash", 900), ("gemini-2.5-pro", 2500),
   ("gemini-2.0-flash-lite", 600), ("gemini-2.0-flash", 700),
   ("gpt-4o", 1500), ("gpt-4o-mini", 800), ("o1-mini", 3000), ("gpt-4.5-preview", 2000),
   ("claude-3-5-sonnet-20241022", 1800), ("claude-3-opus-20240229", 4000),
   ("claude-3-haiku-20240307", 600),
   ("deepseek-ai/DeepSeek-R1", 5000), ("deepseek-ai/DeepSeek-R1-Distill-Llama-8B", 2000),
   ("meta-llama/Llama-3.1-8B-Instruct", 1500)]

/-- Lookup in an association list by key (Python `dict.get`). -/
def assocGet? (k : String) : List (String × α) → Option α
  | [] => none
  | (k2, v) :: rest => if k2 = k then some v else assocGet? k rest

/-- Set a key in an association list, replacing in place or appending
(Python `dict[k] = v` on an insertion-ordered dict). -/
def assocSet (k : String) (v : α) : List (String × α) → List (String × α)
  | [] => [(k, v)]
  | (k2, w) :: rest => if k2 = k then (k2, v) :: rest else (k2, w) :: assocSet k v rest

/-- The characters after the last `/` of a character list — model of Python
`s.split("/")[-1]`. -/
def lastSegment (cs : List Char) : List Char :=
  cs.foldl (fun acc c => if c = '/' then [] else acc ++ [c]) []

/-- The sanitized model identifier used for id generation (providers.py lines
275-277 and 539-541): trailing path segment, `.` removed, `-` replaced by
`_`, lowered, truncated to 20 characters. -/
def sanitizeModel (mid : String) : String :=
  let safe := (((lastSegment mid.data).filter (fun c => c ≠ '.')).map
    (fun c => if c = '-' then '_' else c)).map Char.toLower
  String.mk (safe.take 20)

/-- The id of the entry built for a config and model (providers.py line 278):
`f"{ptype}_{pnum}_{safe_model}"`. -/
def providerId (ptype : String) (pnum : Nat) (mid : String) : String :=
  ptype ++ "_" ++ toString pnum ++ "_" ++ sanitizeModel mid

/-- Embeds `_infer_speed` (providers.py lines 212-240). -/
def infer_speed (model_name : String) (latency_ms : Option Nat) : String :=
  match latency_ms with
  | some l => if l < 1000 then "Fast" else if l < 3000 then "Medium" else "Slow"
  | none =>
    let m := pyLower model_name
    if strContains m "r1" || strContains m "o1" || strContains m "reasoning" ||
        strContains m "opus" then "Reasoning"
    else if strContains m "flash" || strContains m "haiku" || strContains m "mini" ||
        strContains m "nemo" || strContains m "turbo" || strContains m "small" then "Fast"
    else if strContains m "pro" || strContains m "sonnet" || strContains m "gpt-4o" ||
        strContains m "large" then "Medium"
    else "Standard"

/-- Whether `cs` starts with one of the vendor prefixes removed by
`_prettify_label`'s `re.sub` (anchored, so at most the leading occurrence). -/
def stripVendorPrefix (cs : List Char) : List Char :=
  if "google/".data.isPrefixOf cs then cs.drop 7
  else if "meta-llama/".data.isPrefixOf cs then cs.drop 11
  else if "deepseek-ai/".data.isPrefixOf cs then cs.drop 12
  else if "microsoft/".data.isPrefixOf cs then cs.drop 10
  else if "mistralai/".data.isPrefixOf cs then cs.drop 10
  else cs

/-- Embeds `_prettify_label` (providers.py lines 242-250). -/
def prettify_label (model_name label : String) : String :=
  if label = "Custom Model" then
    let clean := String.mk (stripVendorPrefix model_name.data)
    if strContains clean "gemini-flash" then "Gemini Flash (Latest)" else clean
  else label

/-- Embeds `_verify_candidate` (providers.py lines 253-316): builds one
`LLMProvider` entry without any network call — status from the
`_VERIFIED_MODELS` map when present (with canned error details), else
ASSUMED; latency from the static estimate table with default 1500. -/
def verify_candidate (config : PConfig) (model_id model_name : String)
    (is_multikey : Bool) (verified : List (String × AvailabilityStatus)) : LLMProvider :=
  let pid := providerId config.ptype config.num model_id
  let se : AvailabilityStatus × Option String :=
    match assocGet? pid verified with
    | some s =>
      (s, if s = .rate_limited then some "Rate limit hit during previous use"
          else if s = .unavailable then some "Failed during previous use"
          else none)
    | none => (.assumed, none)
  let latency := (assocGet? model_id ESTIMATED_LATENCY_MS).getD 1500
  let pretty := prettify_label model_id model_name
  let final_label := pretty ++ (if is_multikey then " (Key " ++ toString config.num ++ ")" else "")
  { id := pid, label := final_label, provider := config.ptype, model := model_id,
    api_key := config.key, status := se.1, latency_ms := some latency,
    speed := infer_speed model_id (some latency), error_message := se.2 }

/-- The three-field lexicographic value of `sort_key` inside
`discover_providers` (providers.py lines 479-494): availability rank, latency
(99999 when absent), provider type name, label. Strings are compared through
their character lists, which agrees with Python's code-point comparison. -/
def availabilityOrder (s : AvailabilityStatus) : Nat :=
  match s with
  | .available => 0
  | .assumed => 0
  | .rate_limited => 1
  | .error => 2
  | .unavailable => 3

/-- Sort key of `discover_providers` as a lexicographic product. -/
def sortKey (p : LLMProvider) : Lex (Nat × Lex (Nat × Lex (List Char × List Char))) :=
  toLex (availabilityOrder p.status,
    toLex (p.latency_ms.getD 99999, toLex (p.provider.data, p.label.data)))

/-- Boolean strict comparison on `sortKey`, fed to the stable sort. -/
def sortKeyLt (a b : LLMProvider) : Bool := decide (sortKey a < sortKey b)

/-- The environment override variable consulted per provider type
(providers.py lines 449-453 and 530-534). -/
def overrideKeyFor (ptype : String) : Option String :=
  if ptype = "gemini" then some "MODEL_NAME"
  else if ptype = "openai" then some "OPENAI_MODEL"
  else if ptype = "anthropic" then some "ANTHROPIC_MODEL"
  else if ptype = "huggingface" then some "HF_MODEL"
  else none

/-- Model of `os.getenv`: first binding of the key (environment keys are
unique in a real process). -/
def envGet (env : List (String × String)) (k : String) : Option String :=
  (env.find? (fun kv => kv.1 == k)).map (fun kv => kv.2)

/-- Python truthiness of an optional string: `None` and `""` are falsy. -/
def truthyOpt : Option String → Bool
  | none => false
  | some s => s != ""

/-- The `env_model` override looked up for a config's provider type, as an
option that is `some` exactly when Python's `if env_model:` is true. -/
def envModelFor (env : List (String × String)) (ptype : String) : Option String :=
  match overrideKeyFor ptype with
  | none => none
  | some k =>
    match envGet env k with
    | some v => if v != "" then some v else none
    | none => none

/-- The candidate list for one config inside `discover_providers` (lines
444-456): the static catalog, plus the environment override model appended as
"Custom Model" when it is not already in the catalog. -/
def candidatesFor (env : List (String × String)) (ptype : String) : List (String × String) :=
  let candidates := CANDIDATE_MODELS ptype
  match envModelFor env ptype with
  | some m => if candidates.any (fun c => c.1 = m) then candidates else candidates ++ [(m, "Custom Model")]
  | none => candidates

/-- The unsorted entry list produced by the verification tasks of
`discover_providers` (lines 443-476): one entry per (config, candidate) pair
in order; `_verify_candidate` never raises, so `asyncio.gather` collects them
all. `is_multikey` counts configs of the same type (the `Counter`). -/
def discoveredEntries (env : List (String × String)) (configs : List PConfig)
    (verified : List (String × AvailabilityStatus)) : List LLMProvider :=
  configs.flatMap (fun config =>
    let is_multikey := (configs.countP (fun c => c.ptype = config.ptype)) > 1
    (candidatesFor env config.ptype).map
      (fun c => verify_candidate config c.1 c.2 is_multikey verified))

/-- The fresh-discovery path of `discover_providers` (providers.py lines
434-509), without the cache check: scan configs, build all entries, sort by
the ranking key. Returns the sorted entries; `.error` models an uncaught
`ValueError` from the scan. -/
def discover_fresh (env : List (String × String))
    (verified : List (String × AvailabilityStatus)) : Except String (List LLMProvider) := do
  let configs ← get_configured_keys env
  return stableSort sortKeyLt (discoveredEntries env configs verified)

/-- Embeds `discover_providers` (providers.py lines 421-509) including the
TTL cache: within `DISCOVERY_CACHE_TTL` (3600 s) of the last discovery, with
a non-empty cached list and no forced refresh, the cached snapshot is
returned unchanged; otherwise a fresh discovery runs, and — unless it found
no candidates at all, in which case the cache is left untouched (`if not
tasks: return []`) — the snapshot and the discovery clock are replaced. -/
def discover_providers (force_refresh : Bool) (now : Nat) (st : RegistryState) :
    Except String (List LLMProvider × RegistryState) :=
  if ¬force_refresh ∧ st.lastDiscovered ≠ [] ∧ now - st.lastDiscoveryTime < 3600 then
    .ok (st.lastDiscovered, st)
  else
    match discover_fresh st.env st.verifiedModels with
    | .error e => .error e
    | .ok entries =>
      if entries = [] then .ok ([], st)
      else .ok (entries, { st with lastDiscovered := entries, lastDiscoveryTime := now })

/-- Patch of the first entry with the given id (providers.py lines 149-161,
`update_provider_status`): sets `status`, and `error_message` only when the
message is truthy; the loop returns after the first match. -/
def patchFirst (pid : String) (status : AvailabilityStatus) (err : Option String) :
    List LLMProvider → Bool × List LLMProvider
  | [] => (false, [])
  | p :: rest =>
    if p.id = pid then
      let em := if truthyOpt err then err else p.error_message
      (true, { p with status := status, error_message := em } :: rest)
    else
      let r := patchFirst pid status err rest
      (r.1, p :: r.2)

/-- Embeds `update_provider_status` (providers.py lines 149-161): in-place
status patch of the cached snapshot; returns whether a matching entry was
found. Touches neither the discovery clock nor the verified-models map, and
performs no probe (it takes no oracle). -/
def update_provider_status (pid : String) (status : AvailabilityStatus)
    (err : Option String) (st : RegistryState) : Bool × RegistryState :=
  let r := patchFirst pid status err st.lastDiscovered
  (r.1, { st with lastDiscovered := r.2 })

/-- The legacy fallback list built by `get_all_providers` when nothing was
discovered yet (providers.py lines 520-553): first catalog candidate per
config, env override replacing the model id (but not the label), status
forced AVAILABLE. -/
def legacyFallback (env : List (String × String)) : Except String (List LLMProvider) := do
  let configs ← get_configured_keys env
  return configs.filterMap (fun config =>
    match CANDIDATE_MODELS config.ptype with
    | [] => none
    | (mid, mname) :: _ =>
      let model_id := (envModelFor env config.ptype).getD mid
      some { id := providerId config.ptype config.num model_id,
             label := mname, provider := config.ptype, model := model_id,
             api_key := config.key, status := .available, latency_ms := none,
             speed := "Standard", error_message := none })

/-- Embeds `get_all_providers` (providers.py lines 512-553): the cached
snapshot when non-empty, else the legacy fallback recomputed from the
environment. -/
def get_all_providers (st : RegistryState) : Except String (List LLMProvider) :=
  if st.lastDiscovered ≠ [] then .ok st.lastDiscovered
  else legacyFallback st.env

/-- Whether a status is usable for selection and fallback (providers.py line
563): AVAILABLE or ASSUMED. -/
def usableStatus (s : AvailabilityStatus) : Bool :=
  s = .available || s = .assumed

/-- Embeds `get_available_providers` (providers.py lines 556-563). -/
def get_available_providers (st : RegistryState) : Except String (List LLMProvider) :=
  match get_all_providers st with
  | .error e => .error e
  | .ok ps => .ok (ps.filter (fun p => usableStatus p.status))

/-- Observable request events: a verify-on-first-use network probe, or a real
backend analysis call, each tagged with the provider id it targets. Used to
state "before any network call" / "no fallback attempt" properties. -/
inductive REvent where
  | verifyProbe (pid : String)
  | backendCall (pid : String)
deriving DecidableEq, Repr

/-- Outcome of a vendor `verify_model` probe, after the result-shape
normalization of providers.py lines 369-385 (`bool` or tuple results are
reduced to an availability flag and an optional truthy error message):
`ok` is a completed probe, `timeout` models `asyncio.TimeoutError`, and
`exc` models any other exception with its text. -/
inductive VerifyResult where
  | ok (isAvailable : Bool) (errorMessage : Option String)
  | timeout
  | exc (msg : String)
deriving DecidableEq, Repr

/-- Outcome of a vendor `run_*` analysis call: success, an
`LLMRateLimitError`, or any other exception with its text. -/
inductive CallOutcome where
  | success (r : IssueAnalysis)
  | rateLimit (msg : String)
  | failure (msg : String)
deriving DecidableEq, Repr

/-- The black-box vendor backends (spec: `probe`/`call` collaborator
interface), keyed by the provider id being exercised. -/
structure Oracle where
  verify : String → VerifyResult
  call : String → CallOutcome

/-- The error taxonomy raised by the router: `selectionError` models
`ProviderSelectionError`, `rateLimitError` models `LLMRateLimitError`,
`callError` models any other exception from a backend call, and `pyError`
models an uncaught `ValueError` escaping the env scan. -/
inductive RouterErr where
  | selectionError (msg : String)
  | rateLimitError (msg : String)
  | callError (msg : String)
  | pyError (msg : String)
deriving DecidableEq, Repr

/-- Result of `verify_on_first_use`: the returned pair plus the updated state
and the probe events performed. -/
structure VerifyStep where
  ok : Bool
  msg : Option String
  state : RegistryState
  events : List REvent
deriving DecidableEq, Repr

/-- Result of a routed call: the returned analysis or raised error, the
updated state, and the network events performed in order. -/
structure CallStep where
  result : Except RouterErr IssueAnalysis
  state : RegistryState
  events : List REvent
deriving DecidableEq, Repr

/-- Model of Python `", ".join(...)` and friends. -/
def joinSep (sep : String) : List String → String
  | [] => ""
  | [x] => x
  | x :: xs => x ++ sep ++ joinSep sep xs

/-- Python `repr` of a list of strings, as interpolated by the f-strings in
the selection error messages. -/
def pyListRepr (ids : List String) : String :=
  "[" ++ joinSep ", " (ids.map (fun s => "\x27" ++ s ++ "\x27")) ++ "]"

/-- Python f-string rendering of an optional string (`None` prints as such). -/
def pyShowOpt : Option String → String
  | none => "None"
  | some s => s

/-- The `ProviderSelectionError` message for an empty provider list
(router.py lines 67-70). -/
def noProvidersMsg : String :=
  "No LLM providers configured. Please set an API key (GEMINI_API_KEY, OPENAI_API_KEY, ANTHROPIC_API_KEY, or HF_API_KEY) in your environment."

/-- The `ProviderSelectionError` message for an unresolvable explicit id
(router.py lines 79-81), enumerating the usable ids. -/
def invalidIdMsg (pid : String) (providers : List LLMProvider) : String :=
  "Invalid provider_id \x27" ++ pid ++ "\x27. Available: " ++
    pyListRepr (providers.map (fun p => p.id))

/-- The `ProviderSelectionError` message for an ambiguous selection
(router.py lines 88-91), enumerating the usable ids. -/
def ambiguousMsg (providers : List LLMProvider) : String :=
  "Multiple LLM providers available. Please specify provider_id. Available: " ++
    pyListRepr (providers.map (fun p => p.id))

/-- The `ProviderSelectionError` message raised when verify-on-first-use
fails (router.py lines 111-123), naming up to three currently AVAILABLE
labels as a hint. -/
def notWorkingMsg (label : String) (em : Option String) (availLabels : List String) : String :=
  let suggestion :=
    if availLabels ≠ [] then
      " Try using one of these verified models: " ++ joinSep ", " (availLabels.take 3)
    else " Try using a different model like Gemini Flash or GPT-4o Mini."
  "Model \x27" ++ label ++ "\x27 is not working (" ++ pyShowOpt em ++ ")." ++ suggestion

/-- The rate-limit classification of exception text used by
`verify_on_first_use` (providers.py line 411). -/
def isRateLimitText (s : String) : Bool :=
  strContains s "429" || strContains (pyLower s) "rate" || strContains (pyLower s) "quota"

/-- First 100 characters of an exception text (`error_str[:100]`). -/
def pyTake100 (s : String) : String := String.mk (s.data.take 100)

/-- The patch loop inside `verify_on_first_use` (providers.py lines 391-396):
unlike `update_provider_status`, it overwrites `error_message`
unconditionally, on the first matching entry. -/
def patchFirstVerify (pid : String) (status : AvailabilityStatus) (em : Option String) :
    List LLMProvider → List LLMProvider
  | [] => []
  | p :: rest =>
    if p.id = pid then { p with status := status, error_message := em } :: rest
    else p :: patchFirstVerify pid status em rest

/-- The provider types with a client dispatch arm (router.py and
providers.py `if provider.provider == ...` chains). -/
def knownProviderType (t : String) : Bool :=
  t = "gemini" || t = "openai" || t = "anthropic" || t = "huggingface"

/-- Embeds `verify_on_first_use` (providers.py lines 319-418): short-circuits
on an already-definitive status, dispatches the probe for known provider
types, classifies timeouts and rate-limit-shaped exceptions, records the
outcome in the verified-models map, and patches the cached snapshot. -/
def verify_on_first_use (provider : LLMProvider) (st : RegistryState) (o : Oracle) : VerifyStep :=
  if provider.status = .available then ⟨true, none, st, []⟩
  else if provider.status = .unavailable ∨ provider.status = .rate_limited then
    ⟨false, provider.error_message, st, []⟩
  else if ¬ knownProviderType provider.provider then
    ⟨false, some ("Unknown provider: " ++ provider.provider), st, []⟩
  else
    let ev : List REvent := [.verifyProbe provider.id]
    match o.verify provider.id with
    | .ok isAvailable em =>
      let newStatus : AvailabilityStatus := if isAvailable then .available else .unavailable
      let st2 : RegistryState :=
        { st with verifiedModels := assocSet provider.id newStatus st.verifiedModels,
                  lastDiscovered := patchFirstVerify provider.id newStatus em st.lastDiscovered }
      ⟨isAvailable, em, st2, ev⟩
    | .timeout =>
      let m := "Verification timed out after 15.0s"
      let st2 := { st with verifiedModels := assocSet provider.id .error st.verifiedModels }
      ⟨false, some m, (update_provider_status provider.id .error (some m) st2).2, ev⟩
    | .exc e =>
      if isRateLimitText e then
        let st2 := { st with verifiedModels := assocSet provider.id .rate_limited st.verifiedModels }
        ⟨false, some "Rate limit exceeded",
         (update_provider_status provider.id .rate_limited (some "Rate limit exceeded") st2).2, ev⟩
      else
        let st2 := { st with verifiedModels := assocSet provider.id .error st.verifiedModels }
        ⟨false, some (pyTake100 e),
         (update_provider_status provider.id .error (some (pyTake100 e)) st2).2, ev⟩

/-- The live view of a provider object: Python passes around references to
the entries of `_LAST_DISCOVERED`, and the only fields the program ever
mutates through the snapshot are `status` and `error_message`; refreshing
those two fields from the snapshot entry with the same id therefore
reproduces what reading the aliased object observes, while objects not in
the snapshot are unaffected by snapshot patches. -/
def refreshView (p : LLMProvider) (st : RegistryState) : LLMProvider :=
  match st.lastDiscovered.find? (fun q => q.id == p.id) with
  | some q => { p with status := q.status, error_message := q.error_message }
  | none => p

/-- The dispatch-and-promote tail of `_call_provider` (router.py lines
125-163): unknown provider types raise a selection error before any call;
otherwise the backend call runs, and on success an entry still ASSUMED is
promoted to AVAILABLE in the snapshot via `update_provider_status` (which
leaves the verified-models map untouched). -/
def dispatchCall (p : LLMProvider) (st : RegistryState) (o : Oracle)
    (evs : List REvent) : CallStep :=
  if ¬ knownProviderType p.provider then
    { result := .error (.selectionError ("Unknown provider type: " ++ p.provider)),
      state := st, events := evs }
  else
    let evs2 := evs ++ [REvent.backendCall p.id]
    match o.call p.id with
    | .success r =>
      let st2 := if p.status = .assumed then (update_provider_status p.id .available none st).2 else st
      { result := .ok r, state := st2, events := evs2 }
    | .rateLimit m => { result := .error (.rateLimitError m), state := st, events := evs2 }
    | .failure m => { result := .error (.callError m), state := st, events := evs2 }

/-- Embeds `_call_provider` (router.py lines 97-163): an ASSUMED entry of any
non-gemini provider type is verified before first use (gemini skips the
probe); a failed verification raises a `ProviderSelectionError` naming
currently AVAILABLE labels as a hint and performs no backend call; otherwise
the backend call is dispatched on the live (possibly just-promoted) view of
the entry. -/
def call_provider (provider : LLMProvider) (st : RegistryState) (o : Oracle) : CallStep :=
  let pv := refreshView provider st
  if pv.status = .assumed ∧ pv.provider ≠ "gemini" then
    let v := verify_on_first_use pv st o
    if v.ok then dispatchCall (refreshView pv v.state) v.state o v.events
    else
      match get_available_providers v.state with
      | .error e => { result := .error (.pyError e), state := v.state, events := v.events }
      | .ok allp =>
        let verifiedLabels := (allp.filter (fun p => p.status = .available)).map (fun p => p.label)
        { result := .error (.selectionError (notWorkingMsg pv.label v.msg verifiedLabels)),
          state := v.state, events := v.events }
  else dispatchCall pv st o []

/-- The fallback loop of `_execute_with_fallback` (router.py lines 204-229):
try up to `fuel` of the remaining candidates in order; a rate-limited
fallback is patched RATE_LIMITED and skipped, any other fallback failure is
swallowed and skipped; exhaustion raises the aggregated `LLMRateLimitError`
counting the attempted providers. -/
def fallbackLoop (primaryId : String) (rem : List LLMProvider) (fuel : Nat)
    (attempted : List String) (st : RegistryState) (o : Oracle) (evs : List REvent) : CallStep :=
  match fuel, rem with
  | Nat.succ f, p :: rest =>
    let attempted2 := if p.id ∈ attempted then attempted else attempted ++ [p.id]
    let s := call_provider p st o
    match s.result with
    | .ok r => { result := .ok r, state := s.state, events := evs ++ s.events }
    | .error (.rateLimitError _) =>
      let st2 := (update_provider_status p.id .rate_limited
        (some "Rate limit exceeded during fallback") s.state).2
      fallbackLoop primaryId rest f attempted2 st2 o (evs ++ s.events)
    | .error _ => fallbackLoop primaryId rest f attempted2 s.state o (evs ++ s.events)
  | _, _ =>
    { result := .error (.rateLimitError ("Rate limit exceeded for " ++ primaryId ++
        ". Tried " ++ toString attempted.length ++ " provider(s). Please try again later.")),
      state := st, events := evs }

/-- Embeds `_execute_with_fallback` (router.py lines 166-229): call the
primary; only an `LLMRateLimitError` triggers fallback — the primary is then
patched RATE_LIMITED, and the remaining candidates are the given (ranked)
providers not yet attempted whose live status is exactly AVAILABLE
(`p.status.value == 'available'`); any other outcome of the primary
propagates unchanged. -/
def execute_with_fallback (primary : LLMProvider) (all_providers : List LLMProvider)
    (st : RegistryState) (o : Oracle) (max_fallback_attempts : Nat := 2) : CallStep :=
  let s1 := call_provider primary st o
  match s1.result with
  | .error (.rateLimitError _) =>
    let st2 := (update_provider_status primary.id .rate_limited
      (some "Rate limit exceeded during analysis") s1.state).2
    let remaining := all_providers.filter
      (fun p => p.id ≠ primary.id ∧ (refreshView p st2).status = .available)
    fallbackLoop primary.id remaining (min remaining.length max_fallback_attempts)
      [primary.id] st2 o s1.events
  | _ => s1

/-- Embeds `analyze_with_provider` (router.py lines 43-94): selection errors
(no providers, invalid explicit id, ambiguous implicit selection) are raised
before any event; an explicit truthy id resolves against all entries, no id
auto-selects the single usable entry. -/
def analyze_with_provider (provider_id : Option String) (st : RegistryState) (o : Oracle) : CallStep :=
  match get_all_providers st with
  | .error e => { result := .error (.pyError e), state := st, events := [] }
  | .ok allp =>
    let providers := allp.filter (fun p => usableStatus p.status)
    if providers = [] then
      { result := .error (.selectionError noProvidersMsg), state := st, events := [] }
    else if truthyOpt provider_id then
      let pid := provider_id.getD ""
      match allp.find? (fun p => p.id == pid) with
      | some provider => execute_with_fallback provider providers st o
      | none =>
        { result := .error (.selectionError (invalidIdMsg pid providers)), state := st, events := [] }
    else
      match providers with
      | [provider] => execute_with_fallback provider providers st o
      | _ => { result := .error (.selectionError (ambiguousMsg providers)), state := st, events := [] }

/-- Proof-support predicate: the per-entry relation guaranteed by a status
patch — the seven identity fields are preserved, and entries whose id does
not match are untouched. -/
def patchRel (pid : String) (p q : LLMProvider) : Prop :=
  (q.id = p.id ∧ q.label = p.label ∧ q.provider = p.provider ∧ q.model = p.model ∧
   q.api_key = p.api_key ∧ q.latency_ms = p.latency_ms ∧ q.speed = p.speed) ∧
  (p.id ≠ pid → q = p)

/-- Proof-support invariant of the scan accumulator pair (results,
seen_nums): with the mis-quoted digit class, a successful scan registers at
most one credential, always in slot 1, and never a placeholder value. -/
def ScanInvP (rs : List (Nat × String) × List Nat) : Prop :=
  (rs.1 = [] ∨ ∃ v, rs.1 = [(1, v)]) ∧ (rs.1 ≠ [] → (1 : Nat) ∈ rs.2) ∧
  (∀ x ∈ rs.1, is_placeholder x.2 = false)

/-- The scan invariant lifted to the `Except`-valued accumulator. -/
def ScanInv (acc : Except String (List (Nat × String) × List Nat)) : Prop :=
  ∀ rs, acc = .ok rs → ScanInvP rs

/-- The ids a single slot-1 credential of provider type `t` contributes to a
discovery snapshot when no override model is configured. -/
def catalogIds (t : String) : List String :=
  (CANDIDATE_MODELS t).map (fun c => providerId t 1 c.1)

/-- Concrete environment with a single gemini credential, used by witnesses
and counterexamples. -/
def envGemini : List (String × String) := [("GEMINI_API_KEY", "validlongkey12345")]

/-- The snapshot `discover_providers` produces from `envGemini` with an empty
verified-models map. -/
def gFlash : LLMProvider :=
  { id := "gemini_1_gemini_flash_latest", label := "Gemini Flash (Latest)",
    provider := "gemini", model := "gemini-flash-latest", api_key := "validlongkey12345",
    status := .assumed, latency_ms := some 800, speed := "Fast", error_message := none }

/-- Second entry of the `envGemini` snapshot. -/
def g25Flash : LLMProvider :=
  { id := "gemini_1_gemini_25_flash", label := "Gemini 2.5 Flash",
    provider := "gemini", model := "gemini-2.5-flash", api_key := "validlongkey12345",
    status := .assumed, latency_ms := some 900, speed := "Fast", error_message := none }

/-- Third entry of the `envGemini` snapshot. -/
def g25Pro : LLMProvider :=
  { id := "gemini_1_gemini_25_pro", label := "Gemini 2.5 Pro",
    provider := "gemini", model := "gemini-2.5-pro", api_key := "validlongkey12345",
    status := .assumed, latency_ms := some 2500, speed := "Medium", error_message := none }

/-- The ranked snapshot discovered from `envGemini`. -/
def geminiSnapshot : List LLMProvider := [gFlash, g25Flash, g25Pro]

/-- Registry state holding the `envGemini` snapshot. -/
def stGem : RegistryState :=
  { env := envGemini, lastDiscovered := geminiSnapshot, lastDiscoveryTime := 0,
    verifiedModels := [] }

/-- Concrete AVAILABLE gemini entry for router scenarios. -/
def provGeminiAvail : LLMProvider :=
  { id := "gemini_1_flash", label := "Gemini Flash", provider := "gemini",
    model := "gemini-flash-latest", api_key := "k1", status := .available,
    latency_ms := some 800, speed := "Fast", error_message := none }

/-- The same gemini entry with status ASSUMED. -/
def provGeminiAssumed : LLMProvider := { provGeminiAvail with status := .assumed }

/-- Concrete ASSUMED openai entry for router scenarios. -/
def provOpenaiAssumed : LLMProvider :=
  { id := "openai_1_gpt_4o_mini", label := "GPT-4o Mini", provider := "openai",
    model := "gpt-4o-mini", api_key := "k2", status := .assumed,
    latency_ms := some 1500, speed := "Medium", error_message := none }

/-- The same openai entry with status AVAILABLE. -/
def provOpenaiAvail : LLMProvider := { provOpenaiAssumed with status := .available }

/-- State with an AVAILABLE gemini primary and an ASSUMED openai entry. -/
def stTwo : RegistryState :=
  { env := [], lastDiscovered := [provGeminiAvail, provOpenaiAssumed],
    lastDiscoveryTime := 50, verifiedModels := [] }

/-- State with an AVAILABLE gemini primary and an AVAILABLE openai entry. -/
def stTwoAvail : RegistryState :=
  { env := [], lastDiscovered := [provGeminiAvail, provOpenaiAvail],
    lastDiscoveryTime := 50, verifiedModels := [] }

/-- State with two ASSUMED entries in ranked order. -/
def stRanked : RegistryState :=
  { env := [], lastDiscovered := [provGeminiAssumed, provOpenaiAssumed],
    lastDiscoveryTime := 50, verifiedModels := [] }

/-- State whose snapshot holds the ASSUMED openai entry and the AVAILABLE
gemini entry. -/
def stOpenaiFirst : RegistryState :=
  { env := [("OPENAI_API_KEY", "validlongkey12345")],
    lastDiscovered := [provOpenaiAssumed, provGeminiAvail],
    lastDiscoveryTime := 50, verifiedModels := [] }

/-- Oracle whose gemini call rate-limits and whose other calls succeed. -/
def oRateLimitGemini : Oracle :=
  { verify := fun _ => .ok true none,
    call := fun i => if i = "gemini_1_flash" then .rateLimit "429 quota exceeded"
      else .success ⟨1⟩ }

/-- Oracle for which every probe and call succeeds. -/
def oAllOk : Oracle :=
  { verify := fun _ => .ok true none, call := fun _ => .success ⟨7⟩ }

/-- Oracle whose probes report the model unavailable. -/
def oVerifyFail : Oracle :=
  { verify := fun _ => .ok false (some "404 model not found"),
    call := fun _ => .success ⟨9⟩ }

/-- Oracle whose calls raise a generic (non-rate-limit) exception. -/
def oCallFail : Oracle :=
  { verify := fun _ => .ok true none, call := fun _ => .failure "boom" }

theorem mem_stableInsert (lt : α → α → Bool) (x a : α) :
    ∀ l : List α, a ∈ stableInsert lt x l ↔ a = x ∨ a ∈ l
  | [] => by simp [stableInsert]
  | y :: ys => by
    rw [stableInsert]
    by_cases h : lt y x <;> simp [h, mem_stableInsert lt x a ys]
    tauto

theorem stableInsert_perm (lt : α → α → Bool) (x : α) :
    ∀ l : List α, (stableInsert lt x l).Perm (x :: l)
  | [] => List.Perm.refl _
  | y :: ys => by
    rw [stableInsert]
    by_cases h : lt y x
    · simp only [h, if_true]
      exact ((stableInsert_perm lt x ys).cons y).trans (List.Perm.swap x y ys)
    · simp [h]

theorem stableSort_perm (lt : α → α → Bool) :
    ∀ l : List α, (stableSort lt l).Perm l
  | [] => List.Perm.refl _
  | x :: xs => by
    rw [stableSort]
    exact (stableInsert_perm lt x (stableSort lt xs)).trans ((stableSort_perm lt xs).cons x)

theorem pairwise_stableInsert [LinearOrder β] (key : α → β) (x : α) :
    ∀ l : List α, l.Pairwise (fun a b => key a ≤ key b) →
      (stableInsert (fun a b => decide (key a < key b)) x l).Pairwise (fun a b => key a ≤ key b)
  | [], _ => by simp [stableInsert]
  | y :: ys, h => by
    rw [stableInsert]
    rcases List.pairwise_cons.1 h with ⟨hy, hys⟩
    by_cases hlt : key y < key x
    · simp only [decide_eq_true_eq, hlt, if_true]
      refine List.pairwise_cons.2 ⟨?_, pairwise_stableInsert key x ys hys⟩
      intro z hz
      rcases (mem_stableInsert _ x z ys).1 hz with rfl | hz2
      · exact le_of_lt hlt
      · exact hy z hz2
    · simp only [decide_eq_true_eq, hlt, if_false]
      refine List.pairwise_cons.2 ⟨?_, h⟩
      intro z hz
      rcases List.mem_cons.1 hz with rfl | hz2
      · exact not_lt.1 hlt
      · exact le_trans (not_lt.1 hlt) (hy z hz2)

theorem pairwise_stableSort [LinearOrder β] (key : α → β) :
    ∀ l : List α, (stableSort (fun a b => decide (key a < key b)) l).Pairwise
      (fun a b => key a ≤ key b)
  | [] => by simp [stableSort]
  | x :: xs => pairwise_stableInsert key x _ (pairwise_stableSort key xs)

theorem pyStripChars_cons (c : Char) (t : List Char) (hc : pyIsSpace c = false) :
    ∃ t2, pyStripChars (c :: t) = c :: t2 := by
  unfold pyStripChars
  rw [List.dropWhile_cons]
  simp only [hc, Bool.false_eq_true, if_false, List.reverse_cons]
  rw [List.dropWhile_append]
  by_cases he : (t.reverse.dropWhile pyIsSpace).isEmpty
  · refine ⟨[], ?_⟩
    simp [he, List.dropWhile_cons, hc]
  · refine ⟨(t.reverse.dropWhile pyIsSpace).reverse, ?_⟩
    simp [he]

theorem pyIntNat?_backslash (t : List Char) : pyIntNat? (String.mk ('\\' :: t)) = none := by
  unfold pyIntNat?
  rcases pyStripChars_cons '\\' t (by decide) with ⟨t2, heq⟩
  have hdata : (String.mk ('\\' :: t)).data = '\\' :: t := rfl
  rw [hdata, heq]
  simp [List.all_cons]

theorem apiKeyMatch_suffix_shape (pfx k s : String)
    (h : apiKeyMatch pfx k = some (some s)) : ∃ t, s = String.mk ('\\' :: t) := by
  simp only [apiKeyMatch] at h
  split at h
  · exact absurd h (by simp)
  · split at h
    · injection h with h2
      injection h2 with h3
      exact ⟨_, h3.symm⟩
    · exact absurd h (by simp)

theorem addSlot_one_preserves (v : String) (rs : List (Nat × String) × List Nat)
    (hinv : ScanInvP rs) (hv : is_placeholder v = false) : ScanInvP (addSlot 1 v rs) := by
  rcases hinv with ⟨hshape, hseen, hph⟩
  unfold addSlot
  by_cases hm : (1 : Nat) ∈ rs.2
  · rw [if_pos hm]; exact ⟨hshape, hseen, hph⟩
  · rw [if_neg hm]
    have hres : rs.1 = [] := by
      by_contra hne
      exact hm (hseen hne)
    rw [hres]
    refine ⟨Or.inr ⟨v, rfl⟩, fun _ => List.mem_cons_self 1 rs.2, ?_⟩
    intro x hx
    rcases List.mem_singleton.1 hx with rfl
    exact hv

theorem scanStep_preserves (pfx : String) (acc : Except String (List (Nat × String) × List Nat))
    (kv : String × String) (hinv : ScanInv acc) : ScanInv (scanStep pfx acc kv) := by
  intro rs2 h2
  unfold scanStep at h2
  split at h2
  · exact absurd h2 (by simp)
  · rename_i rsB
    have hP : ScanInvP rsB := hinv rsB rfl
    split at h2
    · cases h2
      exact hP
    · rename_i hpl
      split at h2
      · cases h2
        exact addSlot_one_preserves kv.2 rsB hP (by simpa using hpl)
      · rename_i sfx heq1 heq2
        rcases apiKeyMatch_suffix_shape pfx kv.1 sfx heq1 with ⟨t, rfl⟩
        rw [pyIntNat?_backslash] at h2
        exact absurd h2 (by simp)
      · split at h2
        · cases h2
          exact addSlot_one_preserves kv.2 rsB hP (by simpa using hpl)
        · cases h2
          exact hP

theorem foldl_preserve {β : Type _} {α : Type _} {P : β → Prop} (f : β → α → β)
    (h : ∀ acc b, P acc → P (f acc b)) :
    ∀ (l : List α) (init : β), P init → P (l.foldl f init)
  | [], _, hi => hi
  | b :: bs, init, hi => foldl_preserve f h bs (f init b) (h init b hi)

theorem scan_env_inv (pfxs : List String) (env : List (String × String)) :
    ScanInv (pfxs.foldl (fun acc pfx => env.foldl (scanStep pfx) acc) (.ok ([], []))) := by
  refine foldl_preserve _ ?_ pfxs _ ?_
  · intro acc pfx hacc
    exact foldl_preserve _ (fun acc2 kv h2 => scanStep_preserves pfx acc2 kv h2) env acc hacc
  · intro rs h
    cases h
    exact ⟨Or.inl rfl, by simp, by simp⟩

theorem scan_env_for_keys_ok (pfxs : List String) (env : List (String × String))
    (rs : List (Nat × String)) (h : scan_env_for_keys pfxs env = .ok rs) :
    (rs = [] ∨ ∃ v, rs = [(1, v)]) ∧ ∀ x ∈ rs, is_placeholder x.2 = false := by
  unfold scan_env_for_keys at h
  split at h
  · exact absurd h (by simp)
  · rename_i p heq
    injection h with h2
    have hP := scan_env_inv pfxs env
    rw [heq] at hP
    rcases hP p rfl with ⟨hshape, _, hph⟩
    rcases hshape with hres | ⟨v, hres⟩
    · rw [hres] at h2
      subst h2
      exact ⟨Or.inl rfl, by simp [stableSort]⟩
    · rw [hres] at h2
      subst h2
      refine ⟨Or.inr ⟨v, rfl⟩, ?_⟩
      intro x hx
      have hx2 := ((stableSort_perm (fun a b => decide (a.1 < b.1)) [(1, v)]).mem_iff).1 hx
      rw [hres] at hph
      exact hph x hx2

theorem get_configured_keys_ok (env : List (String × String)) (cfgs : List PConfig)
    (h : get_configured_keys env = .ok cfgs) :
    ∃ g o a hf,
      scan_env_for_keys ["GEMINI"] env = .ok g ∧
      scan_env_for_keys ["OPENAI"] env = .ok o ∧
      scan_env_for_keys ["ANTHROPIC", "CLAUDE"] env = .ok a ∧
      scan_env_for_keys ["HF", "HUGGINGFACE"] env = .ok hf ∧
      cfgs = addConfigs "gemini" g ++ addConfigs "openai" o ++
        addConfigs "anthropic" a ++ addConfigs "huggingface" hf := by
  unfold get_configured_keys at h
  cases hg : scan_env_for_keys ["GEMINI"] env with
  | error e => rw [hg] at h; simp [Bind.bind, Except.bind] at h
  | ok g =>
    rw [hg] at h
    cases ho : scan_env_for_keys ["OPENAI"] env with
    | error e => rw [ho] at h; simp [Bind.bind, Except.bind] at h
    | ok o =>
      rw [ho] at h
      cases ha : scan_env_for_keys ["ANTHROPIC", "CLAUDE"] env with
      | error e => rw [ha] at h; simp [Bind.bind, Except.bind] at h
      | ok a =>
        rw [ha] at h
        cases hh : scan_env_for_keys ["HF", "HUGGINGFACE"] env with
        | error e => rw [hh] at h; simp [Bind.bind, Except.bind] at h
        | ok hf =>
          rw [hh] at h
          simp only [Bind.bind, Except.bind, Pure.pure, Except.pure] at h
          injection h with h2
          exact ⟨g, o, a, hf, rfl, rfl, rfl, rfl, h2.symm⟩

theorem mem_addConfigs (t : String) (r : List (Nat × String)) (c : PConfig)
    (h : c ∈ addConfigs t r) : ∃ x ∈ r, c = ⟨t, x.1, x.2⟩ := by
  rcases List.mem_map.1 h with ⟨x, hx, rfl⟩
  exact ⟨x, hx, rfl⟩

theorem configured_keys_not_placeholder (env : List (String × String)) (cfgs : List PConfig)
    (h : get_configured_keys env = .ok cfgs) :
    ∀ c ∈ cfgs, is_placeholder c.key = false := by
  rcases get_configured_keys_ok env cfgs h with ⟨g, o, a, hf, hg, ho, ha, hh, rfl⟩
  intro c hc
  rcases List.mem_append.1 hc with hc1 | hc4
  rcases List.mem_append.1 hc1 with hc2 | hc3
  rcases List.mem_append.1 hc2 with hcg | hco
  · rcases mem_addConfigs _ _ _ hcg with ⟨x, hx, rfl⟩
    exact (scan_env_for_keys_ok _ _ _ hg).2 x hx
  · rcases mem_addConfigs _ _ _ hco with ⟨x, hx, rfl⟩
    exact (scan_env_for_keys_ok _ _ _ ho).2 x hx
  · rcases mem_addConfigs _ _ _ hc3 with ⟨x, hx, rfl⟩
    exact (scan_env_for_keys_ok _ _ _ ha).2 x hx
  · rcases mem_addConfigs _ _ _ hc4 with ⟨x, hx, rfl⟩
    exact (scan_env_for_keys_ok _ _ _ hh).2 x hx

theorem discoveredEntries_key (env : List (String × String)) (configs : List PConfig)
    (verified : List (String × AvailabilityStatus)) (e : LLMProvider)
    (he : e ∈ discoveredEntries env configs verified) :
    ∃ c ∈ configs, e.api_key = c.key := by
  rcases List.mem_flatMap.1 he with ⟨config, hc, hm⟩
  rcases List.mem_map.1 hm with ⟨cand, _, rfl⟩
  exact ⟨config, hc, rfl⟩

theorem discover_fresh_eq (env : List (String × String))
    (verified : List (String × AvailabilityStatus)) (res : List LLMProvider)
    (h : discover_fresh env verified = .ok res) :
    ∃ configs, get_configured_keys env = .ok configs ∧
      res = stableSort sortKeyLt (discoveredEntries env configs verified) := by
  unfold discover_fresh at h
  cases hc : get_configured_keys env with
  | error e => rw [hc] at h; simp [Bind.bind, Except.bind] at h
  | ok configs =>
    rw [hc] at h
    simp only [Bind.bind, Except.bind, Pure.pure, Except.pure] at h
    injection h with h2
    exact ⟨configs, rfl, h2.symm⟩

theorem pyStripChars_length_le (cs : List Char) : (pyStripChars cs).length ≤ cs.length := by
  unfold pyStripChars
  calc ((cs.dropWhile pyIsSpace).reverse.dropWhile pyIsSpace).reverse.length
      = ((cs.dropWhile pyIsSpace).reverse.dropWhile pyIsSpace).length := List.length_reverse _
    _ ≤ (cs.dropWhile pyIsSpace).reverse.length := (List.dropWhile_sublist _).length_le
    _ = (cs.dropWhile pyIsSpace).length := List.length_reverse _
    _ ≤ cs.length := (List.dropWhile_sublist _).length_le

theorem discoveredEntries_ids (env : List (String × String)) (cfgs : List PConfig)
    (verified : List (String × AvailabilityStatus)) :
    (discoveredEntries env cfgs verified).map (fun p => p.id) =
      cfgs.flatMap (fun c => (candidatesFor env c.ptype).map
        (fun cand => providerId c.ptype c.num cand.1)) := by
  unfold discoveredEntries
  rw [List.map_flatMap]
  congr 1
  funext c
  rw [List.map_map]
  rfl

theorem candidatesFor_no_override (env : List (String × String)) (t : String)
    (hov : envModelFor env t = none) : candidatesFor env t = CANDIDATE_MODELS t := by
  unfold candidatesFor
  rw [hov]

theorem assocGet?_assocSet (k : String) (v : AvailabilityStatus) :
    ∀ l : List (String × AvailabilityStatus), assocGet? k (assocSet k v l) = some v
  | [] => by simp [assocSet, assocGet?]
  | (k2, w) :: rest => by
    rw [assocSet]
    by_cases h : k2 = k
    · rw [if_pos h]
      rw [assocGet?]
      rw [if_pos h]
    · rw [if_neg h]
      rw [assocGet?]
      rw [if_neg h]
      exact assocGet?_assocSet k v rest

theorem find?_patchFirstVerify (pid : String) (s : AvailabilityStatus) (em : Option String)
    (l : List LLMProvider) (e : LLMProvider)
    (hf : l.find? (fun q => q.id == pid) = some e) :
    (patchFirstVerify pid s em l).find? (fun q => q.id == pid) =
      some { e with status := s, error_message := em } := by
  induction l with
  | nil => simp [List.find?] at hf
  | cons p rest ih =>
    rw [patchFirstVerify]
    by_cases hp : p.id = pid
    · rw [if_pos hp]
      have h1 : (({ p with status := s, error_message := em } : LLMProvider).id == pid) = true := by
        simp [hp]
      have hp2 : (p.id == pid) = true := by simp [hp]
      simp only [List.find?_cons, hp2] at hf
      injection hf with hf2
      simp only [List.find?_cons, h1]
      rw [hf2]
    · rw [if_neg hp]
      have hp2 : (p.id == pid) = false := by simp [hp]
      simp only [List.find?_cons, hp2] at hf
      simp only [List.find?_cons, hp2]
      exact ih hf

theorem refreshView_of_find (p : LLMProvider) (st : RegistryState) (q : LLMProvider)
    (h : st.lastDiscovered.find? (fun r => r.id == p.id) = some q) :
    refreshView p st = { p with status := q.status, error_message := q.error_message } := by
  unfold refreshView
  rw [h]

theorem refreshView_self (p : LLMProvider) (st : RegistryState)
    (h : st.lastDiscovered.find? (fun r => r.id == p.id) = some p) :
    refreshView p st = p := by
  rw [refreshView_of_find p st p h]

theorem availabilityOrder_mono (a b : LLMProvider) (h : sortKey a ≤ sortKey b) :
    availabilityOrder a.status ≤ availabilityOrder b.status := by
  rcases (Prod.Lex.le_iff _ _).1 h with h1 | ⟨h1, _⟩
  · exact le_of_lt h1
  · exact le_of_eq h1

theorem usable_of_order_zero (s : AvailabilityStatus) (h : availabilityOrder s = 0) :
    usableStatus s = true := by
  cases s <;> simp [availabilityOrder, usableStatus] at h ⊢

theorem order_zero_of_usable (s : AvailabilityStatus) (h : usableStatus s = true) :
    availabilityOrder s = 0 := by
  cases s <;> simp [availabilityOrder, usableStatus] at h ⊢

theorem patchFirst_frame (pid : String) (status : AvailabilityStatus) (err : Option String) :
    ∀ l : List LLMProvider, List.Forall₂ (patchRel pid) l (patchFirst pid status err l).2
  | [] => List.Forall₂.nil
  | p :: rest => by
    rw [patchFirst]
    by_cases h : p.id = pid
    · rw [if_pos h]
      refine List.Forall₂.cons ⟨⟨rfl, rfl, rfl, rfl, rfl, rfl, rfl⟩, fun hne => absurd h hne⟩ ?_
      exact List.forall₂_same.2 (fun a _ => ⟨⟨rfl, rfl, rfl, rfl, rfl, rfl, rfl⟩, fun _ => rfl⟩)
    · rw [if_neg h]
      exact List.Forall₂.cons ⟨⟨rfl, rfl, rfl, rfl, rfl, rfl, rfl⟩, fun _ => rfl⟩
        (patchFirst_frame pid status err rest)

/-- C3 (amended): for an ASSUMED snapshot entry of a non-gemini provider
type, a successful verify-on-first-use probe followed by a successful real
call returns the analysis, promotes the entry to AVAILABLE in the cached
snapshot, records AVAILABLE in the verified-models map keyed by the entry id
(so a rebuilt candidate for the same id is AVAILABLE, not ASSUMED), and a
subsequent routed call on the same entry performs no verify probe. -/
theorem C3_verified_promotion_remembered (e : LLMProvider) (st : RegistryState) (o : Oracle)
    (a : IssueAnalysis)
    (hfind : st.lastDiscovered.find? (fun q => q.id == e.id) = some e)
    (ha : e.status = .assumed)
    (hk : e.provider = "openai" ∨ e.provider = "anthropic" ∨ e.provider = "huggingface")
    (hv : o.verify e.id = .ok true none)
    (hc : o.call e.id = .success a) :
    (call_provider e st o).result = .ok a ∧
    (call_provider e st o).events = [.verifyProbe e.id, .backendCall e.id] ∧
    (refreshView e (call_provider e st o).state).status = .available ∧
    assocGet? e.id (call_provider e st o).state.verifiedModels = some .available ∧
    (∀ cfg : PConfig, ∀ mid mname : String, ∀ mk : Bool,
      providerId cfg.ptype cfg.num mid = e.id →
      (verify_candidate cfg mid mname mk (call_provider e st o).state.verifiedModels).status =
        .available) ∧
    (call_provider e (call_provider e st o).state o).events = [.backendCall e.id] := by
  have hne : e.provider ≠ "gemini" := by
    rcases hk with h | h | h <;> rw [h] <;> decide
  have hknown : knownProviderType e.provider = true := by
    rcases hk with h | h | h <;> rw [h] <;> decide
  have hrv : refreshView e st = e := refreshView_self e st hfind
  have hvstep : verify_on_first_use e st o =
      ⟨true, none,
        { st with verifiedModels := assocSet e.id .available st.verifiedModels,
                  lastDiscovered := patchFirstVerify e.id .available none st.lastDiscovered },
        [.verifyProbe e.id]⟩ := by
    unfold verify_on_first_use
    rw [ha]
    rw [if_neg (by decide)]
    rw [if_neg (by decide)]
    rw [if_neg (by simp [hknown])]
    rw [hv]
    rfl
  have hcall : call_provider e st o =
      dispatchCall { e with status := .available, error_message := none }
        { st with verifiedModels := assocSet e.id .available st.verifiedModels,
                  lastDiscovered := patchFirstVerify e.id .available none st.lastDiscovered }
        o [.verifyProbe e.id] := by
    unfold call_provider
    rw [hrv]
    rw [if_pos ⟨ha, hne⟩]
    rw [hvstep]
    rw [if_pos rfl]
    rw [refreshView_of_find e _ ({ e with status := .available, error_message := none })
      (find?_patchFirstVerify e.id .available none st.lastDiscovered e hfind)]
  have hdis : dispatchCall { e with status := .available, error_message := none }
      { st with verifiedModels := assocSet e.id .available st.verifiedModels,
                lastDiscovered := patchFirstVerify e.id .available none st.lastDiscovered }
      o [.verifyProbe e.id] =
      { result := .ok a,
        state := { st with verifiedModels := assocSet e.id .available st.verifiedModels,
                           lastDiscovered := patchFirstVerify e.id .available none st.lastDiscovered },
        events := [.verifyProbe e.id, .backendCall e.id] } := by
    unfold dispatchCall
    simp only [hknown, hc]
    simp
  have hstate : (call_provider e st o).state =
      { st with verifiedModels := assocSet e.id .available st.verifiedModels,
                lastDiscovered := patchFirstVerify e.id .available none st.lastDiscovered } := by
    rw [hcall, hdis]
  have hrv2 : refreshView e (call_provider e st o).state =
      { e with status := .available, error_message := none } := by
    rw [hstate]
    exact refreshView_of_find e
      { st with verifiedModels := assocSet e.id .available st.verifiedModels,
                lastDiscovered := patchFirstVerify e.id .available none st.lastDiscovered }
      { e with status := .available, error_message := none }
      (find?_patchFirstVerify e.id .available none st.lastDiscovered e hfind)
  refine ⟨?_, ?_, ?_, ?_, ?_, ?_⟩
  · rw [hcall, hdis]
  · rw [hcall, hdis]
  · rw [hrv2]
  · rw [hstate]
    exact assocGet?_assocSet e.id .available st.verifiedModels
  · intro cfg mid mname mk hpid
    rw [hstate]
    unfold verify_candidate
    simp only [hpid]
    rw [assocGet?_assocSet]
  · rw [hstate]
    unfold call_provider
    rw [refreshView_of_find e
      { st with verifiedModels := assocSet e.id .available st.verifiedModels,
                lastDiscovered := patchFirstVerify e.id .available none st.lastDiscovered }
      { e with status := .available, error_message := none }
      (find?_patchFirstVerify e.id .available none st.lastDiscovered e hfind)]
    rw [if_neg (by simp)]
    unfold dispatchCall
    simp only [hknown, hc]
    simp

/-- C1 (amended): when the primary call rate-limits, the router patches the
primary entry to RATE_LIMITED with detail "Rate limit exceeded during
analysis" and falls back over the not-yet-attempted entries whose live status
is exactly AVAILABLE (ASSUMED entries are excluded by
`p.status.value == 'available'`); with exactly one other AVAILABLE entry
whose call succeeds, route returns that fallback's result and a subsequent
read shows the primary RATE_LIMITED. -/
theorem C1_available_fallback_succeeds (p1 p2 : LLMProvider) (st : RegistryState) (o : Oracle)
    (a : IssueAnalysis) (m : String)
    (hl : st.lastDiscovered = [p1, p2])
    (hne : p1.id ≠ "")
    (h12 : p1.id ≠ p2.id)
    (hs1 : p1.status = .available) (hs2 : p2.status = .available)
    (hk1 : knownProviderType p1.provider = true) (hk2 : knownProviderType p2.provider = true)
    (hc1 : o.call p1.id = .rateLimit m) (hc2 : o.call p2.id = .success a) :
    (analyze_with_provider (some p1.id) st o).result = .ok a ∧
    (analyze_with_provider (some p1.id) st o).events =
      [.backendCall p1.id, .backendCall p2.id] ∧
    (refreshView p1 (analyze_with_provider (some p1.id) st o).state).status = .rate_limited ∧
    (refreshView p1 (analyze_with_provider (some p1.id) st o).state).error_message =
      some "Rate limit exceeded during analysis" := by
  have hbne : (p1.id == p2.id) = false := by simp [h12]
  have hbne2 : (p2.id == p1.id) = false := by
    simp only [beq_eq_false_iff_ne]
    exact fun h => h12 (Eq.symm h)
  have h1 : get_all_providers st = .ok [p1, p2] := by
    unfold get_all_providers
    rw [hl]
    simp
  have hfilter : List.filter (fun p => usableStatus p.status) [p1, p2] = [p1, p2] := by
    simp [List.filter, usableStatus, hs1, hs2]
  have hfind1 : List.find? (fun q => q.id == p1.id) [p1, p2] = some p1 := by
    simp [List.find?_cons]
  have hrv1 : refreshView p1 st = p1 :=
    refreshView_self p1 st (by rw [hl]; exact hfind1)
  have hcp1 : call_provider p1 st o =
      ⟨.error (.rateLimitError m), st, [.backendCall p1.id]⟩ := by
    unfold call_provider
    rw [hrv1]
    rw [if_neg (by simp [hs1])]
    unfold dispatchCall
    simp only [hk1, hc1]
    simp
  have hp1id :
      ({ p1 with status := AvailabilityStatus.rate_limited,
                 error_message := some "Rate limit exceeded during analysis" } : LLMProvider).id =
        p1.id := rfl
  have hst2 : (update_provider_status p1.id .rate_limited
      (some "Rate limit exceeded during analysis") st).2.lastDiscovered =
      [{ p1 with status := .rate_limited,
                 error_message := some "Rate limit exceeded during analysis" }, p2] := by
    unfold update_provider_status
    rw [hl]
    simp [patchFirst, truthyOpt]
  have hst2a : (update_provider_status p1.id .rate_limited
      (some "Rate limit exceeded during analysis") st).2 =
      { st with lastDiscovered :=
          [{ p1 with status := .rate_limited,
                     error_message := some "Rate limit exceeded during analysis" }, p2] } := by
    unfold update_provider_status
    rw [hl]
    simp [patchFirst, truthyOpt]
  have hrvp2 : refreshView p2 (update_provider_status p1.id .rate_limited
      (some "Rate limit exceeded during analysis") st).2 = p2 := by
    apply refreshView_self
    rw [hst2]
    simp only [List.find?_cons]
    rw [show (({ p1 with status := AvailabilityStatus.rate_limited,
                         error_message := some "Rate limit exceeded during analysis" } :
        LLMProvider).id == p2.id) = false from hbne]
    simp [List.find?_cons]
  have hrvp1 : refreshView p1 (update_provider_status p1.id .rate_limited
      (some "Rate limit exceeded during analysis") st).2 =
      { p1 with status := .rate_limited,
                error_message := some "Rate limit exceeded during analysis" } := by
    rw [refreshView_of_find p1 _
      ({ p1 with status := .rate_limited,
                 error_message := some "Rate limit exceeded during analysis" }) ?_]
    rw [hst2]
    simp [List.find?_cons]
  have hcp2 : call_provider p2 (update_provider_status p1.id .rate_limited
      (some "Rate limit exceeded during analysis") st).2 o =
      ⟨.ok a, (update_provider_status p1.id .rate_limited
        (some "Rate limit exceeded during analysis") st).2, [.backendCall p2.id]⟩ := by
    unfold call_provider
    rw [hrvp2]
    rw [if_neg (by simp [hs2])]
    unfold dispatchCall
    simp only [hk2, hc2]
    simp [hs2]
  have hexec : execute_with_fallback p1 [p1, p2] st o =
      ⟨.ok a, (update_provider_status p1.id .rate_limited
        (some "Rate limit exceeded during analysis") st).2,
        [.backendCall p1.id, .backendCall p2.id]⟩ := by
    unfold execute_with_fallback
    rw [hcp1]
    dsimp only
    have hrem : List.filter (fun p => decide (p.id ≠ p1.id ∧
        (refreshView p (update_provider_status p1.id .rate_limited
          (some "Rate limit exceeded during analysis") st).2).status = .available)) [p1, p2] =
        [p2] := by
      rw [List.filter_cons, List.filter_cons]
      simp only [hrvp2, hs2]
      simp
      exact fun h => h12 (Eq.symm h)
    rw [hrem]
    have hmin : min (List.length [p2]) 2 = 1 := by simp
    rw [hmin]
    unfold fallbackLoop
    dsimp only
    rw [hcp2]
    simp
  have hana : analyze_with_provider (some p1.id) st o = execute_with_fallback p1 [p1, p2] st o := by
    unfold analyze_with_provider
    rw [h1]
    dsimp only
    rw [hfilter]
    rw [if_neg (by simp)]
    have htruthy : truthyOpt (some p1.id) = true := by simp [truthyOpt, hne]
    rw [htruthy]
    rw [if_pos rfl]
    dsimp only [Option.getD]
    rw [hfind1]
  refine ⟨?_, ?_, ?_, ?_⟩
  · rw [hana, hexec]
  · rw [hana, hexec]
  · rw [hana, hexec]
    dsimp only
    rw [hrvp1]
  · rw [hana, hexec]
    dsimp only
    rw [hrvp1]

/-- C2: selection errors are decided before any network event. With the
provider listing succeeding: an empty usable list raises the
no-providers-configured error whatever id was passed; a truthy explicit id
that resolves against no entry raises the provider-not-found error whose
message enumerates the usable ids; with no id given, a single usable entry is
auto-selected as the primary of the fallback execution; with no id given and
at least two usable entries, the ambiguous-selection error lists all usable
ids. In every error case the state is untouched and no probe or call event
occurs. -/
theorem C2_selection_errors_before_network (st : RegistryState) (o : Oracle)
    (allp : List LLMProvider) (hall : get_all_providers st = .ok allp) :
    (allp.filter (fun p => usableStatus p.status) = [] →
      ∀ pid, analyze_with_provider pid st o =
        { result := .error (.selectionError noProvidersMsg), state := st, events := [] }) ∧
    (∀ i, i ≠ "" → allp.filter (fun p => usableStatus p.status) ≠ [] →
      allp.find? (fun p => p.id == i) = none →
      analyze_with_provider (some i) st o =
        { result := .error (.selectionError
            (invalidIdMsg i (allp.filter (fun p => usableStatus p.status)))),
          state := st, events := [] }) ∧
    (∀ p, allp.filter (fun p => usableStatus p.status) = [p] →
      analyze_with_provider none st o = execute_with_fallback p [p] st o) ∧
    (2 ≤ (allp.filter (fun p => usableStatus p.status)).length →
      analyze_with_provider none st o =
        { result := .error (.selectionError
            (ambiguousMsg (allp.filter (fun p => usableStatus p.status)))),
          state := st, events := [] }) := by
  refine ⟨?_, ?_, ?_, ?_⟩
  · intro hempty pid
    unfold analyze_with_provider
    rw [hall]
    dsimp only
    rw [hempty]
    rw [if_pos rfl]
  · intro i hi hnon hfind
    unfold analyze_with_provider
    rw [hall]
    dsimp only
    rw [if_neg hnon]
    have htruthy : truthyOpt (some i) = true := by simp [truthyOpt, hi]
    rw [htruthy]
    rw [if_pos rfl]
    dsimp only [Option.getD]
    rw [hfind]
  · intro p hone
    unfold analyze_with_provider
    rw [hall]
    dsimp only
    rw [hone]
    rw [if_neg (by simp)]
    have htruthy : truthyOpt none = false := rfl
    rw [htruthy]
    rw [if_neg (by simp)]
  · intro hlen
    unfold analyze_with_provider
    rw [hall]
    dsimp only
    rcases hsp : allp.filter (fun p => usableStatus p.status) with _ | ⟨q1, qrest⟩
    · rw [hsp] at hlen
      simp at hlen
    · rcases qrest with _ | ⟨q2, qrest2⟩
      · rw [hsp] at hlen
        simp at hlen
      · rw [hsp]
        rw [if_neg (by simp)]
        have htruthy : truthyOpt none = false := rfl
        rw [htruthy]
        rw [if_neg (by simp)]

/-- C10: for a selected snapshot entry whose status is ASSUMED — if its
provider type is "gemini", no verify-on-first-use probe runs and the real
call is attempted directly; for the other provider types the verify probe
always runs first, and a failed verification raises a
`ProviderSelectionError` naming currently-AVAILABLE labels as a hint, with no
real call attempted, while a successful verification is followed by the real
call. -/
theorem C10_gemini_skips_verification (e : LLMProvider) (st : RegistryState) (o : Oracle)
    (hfind : st.lastDiscovered.find? (fun q => q.id == e.id) = some e)
    (ha : e.status = .assumed) :
    (e.provider = "gemini" → (call_provider e st o).events = [.backendCall e.id]) ∧
    ((e.provider = "openai" ∨ e.provider = "anthropic" ∨ e.provider = "huggingface") →
      (verify_on_first_use e st o).events = [.verifyProbe e.id] ∧
      ((verify_on_first_use e st o).ok = true →
        (call_provider e st o).events = [.verifyProbe e.id, .backendCall e.id]) ∧
      ((verify_on_first_use e st o).ok = false → ∀ ps,
        get_available_providers (verify_on_first_use e st o).state = .ok ps →
        call_provider e st o =
          { result := .error (.selectionError (notWorkingMsg e.label
              (verify_on_first_use e st o).msg
              ((ps.filter (fun p => p.status = .available)).map (fun p => p.label)))),
            state := (verify_on_first_use e st o).state,
            events := [.verifyProbe e.id] })) := by
  have hrv : refreshView e st = e := refreshView_self e st hfind
  constructor
  · intro hg
    unfold call_provider
    rw [hrv]
    rw [if_neg (by simp [hg])]
    unfold dispatchCall
    rw [if_neg (by simp [knownProviderType, hg])]
    dsimp only
    cases o.call e.id <;> simp
  · intro hk
    have hne : e.provider ≠ "gemini" := by
      rcases hk with h | h | h <;> rw [h] <;> decide
    have hknown : knownProviderType e.provider = true := by
      rcases hk with h | h | h <;> rw [h] <;> decide
    have hvshape : (verify_on_first_use e st o).events = [.verifyProbe e.id] := by
      unfold verify_on_first_use
      rw [ha]
      rw [if_neg (by decide)]
      rw [if_neg (by decide)]
      rw [if_neg (by simp [hknown])]
      cases o.verify e.id with
      | ok avail em => rfl
      | timeout => rfl
      | exc msg =>
        dsimp only
        by_cases hrl : isRateLimitText msg
        · rw [if_pos hrl]
        · rw [if_neg hrl]
    refine ⟨hvshape, ?_, ?_⟩
    · intro hok
      unfold call_provider
      rw [hrv]
      rw [if_pos ⟨ha, hne⟩]
      rw [if_pos hok]
      unfold dispatchCall
      have hpr : (refreshView e (verify_on_first_use e st o).state).provider = e.provider := by
        unfold refreshView
        cases ((verify_on_first_use e st o).state.lastDiscovered.find?
          (fun q => q.id == e.id)) <;> rfl
      have hid : (refreshView e (verify_on_first_use e st o).state).id = e.id := by
        unfold refreshView
        cases ((verify_on_first_use e st o).state.lastDiscovered.find?
          (fun q => q.id == e.id)) <;> rfl
      rw [if_neg (by simp [hpr, hknown])]
      rw [hvshape, hid]
      dsimp only
      cases o.call e.id <;> simp
    · intro hnok ps hps
      unfold call_provider
      rw [hrv]
      rw [if_pos ⟨ha, hne⟩]
      rw [if_neg (by simp [hnok])]
      rw [hps]
      rw [hvshape]

/-- C4: with the digit class mis-quoted as a literal backslash-d in the
compiled pattern, an environment variable with a numeric suffix
(`GEMINI_API_KEY_2`) matches neither pattern and registers nothing, while the
unsuffixed form still registers slot 1 — the scan therefore never registers a
credential with slot number n from `<PREFIX>_API_KEY_<n>`, contradicting the
module's own "Supports multiple keys per provider" documentation. -/
theorem C4_suffixed_api_key_never_registered :
    scan_env_for_keys ["GEMINI"] [("GEMINI_API_KEY_2", "validlongkey12345")] = .ok [] ∧
    scan_env_for_keys ["GEMINI"] [("GEMINI_API_KEY", "validlongkey12345")] =
      .ok [(1, "validlongkey12345")] := by
  constructor
  · decide
  · decide

/-- C7: a non-rate-limit failure raised by the primary's backend call
propagates unchanged out of the fallback executor: the result is that very
error, the state is untouched (no entry patched), and the only network event
is the primary's single call — no fallback attempt happens. -/
theorem C7_non_ratelimit_propagates_without_fallback (primary : LLMProvider)
    (providers : List LLMProvider) (st : RegistryState) (o : Oracle) (m : String)
    (hfind : st.lastDiscovered.find? (fun q => q.id == primary.id) = some primary)
    (hst : primary.status = .available)
    (hk : knownProviderType primary.provider = true)
    (hc : o.call primary.id = .failure m) :
    execute_with_fallback primary providers st o =
      { result := .error (.callError m), state := st, events := [.backendCall primary.id] } := by
  have hrv : refreshView primary st = primary := refreshView_self _ _ hfind
  unfold execute_with_fallback call_provider
  rw [hrv]
  rw [if_neg (by simp [hst])]
  unfold dispatchCall
  simp only [hk, hc]
  simp

/-- C8: a status patch is a pure frame update — the discovery clock, the
verified-models map and the environment are untouched, and every snapshot
entry keeps its id, label, provider type, model, credential, latency and
speed; entries whose id differs from the patched id are completely
unchanged. -/
theorem C8_status_patch_frame (pid : String) (status : AvailabilityStatus)
    (err : Option String) (st : RegistryState) :
    (update_provider_status pid status err st).2.lastDiscoveryTime = st.lastDiscoveryTime ∧
    (update_provider_status pid status err st).2.verifiedModels = st.verifiedModels ∧
    (update_provider_status pid status err st).2.env = st.env ∧
    List.Forall₂ (patchRel pid) st.lastDiscovered
      (update_provider_status pid status err st).2.lastDiscovered :=
  ⟨rfl, rfl, rfl, patchFirst_frame pid status err st.lastDiscovered⟩

/-- C9: the credential filter excludes exactly what the spec promises — any
value shorter than 8 characters (in particular the empty value) and any value
whose lowered, stripped form matches one of the placeholder patterns is
classified a placeholder by the total function `_is_placeholder`, and no
entry of any discovery snapshot ever carries a placeholder credential. -/
theorem C9_placeholder_never_registered :
    (∀ v : String, v.data.length < 8 → is_placeholder v = true) ∧
    (∀ v : String, placeholderPatternMatch (pyStrip (pyLower v)).data = true →
      is_placeholder v = true) ∧
    (∀ env verified res, discover_fresh env verified = .ok res →
      ∀ e ∈ res, is_placeholder e.api_key = false) := by
  refine ⟨?_, ?_, ?_⟩
  · intro v hlen
    unfold is_placeholder
    by_cases hv : v = ""
    · rw [if_pos hv]
    · rw [if_neg hv]
      have hle : (pyStrip (pyLower v)).length ≤ v.data.length := by
        have h1 : (pyStrip (pyLower v)).length =
            (pyStripChars (v.data.map Char.toLower)).length := rfl
        rw [h1]
        calc (pyStripChars (v.data.map Char.toLower)).length
            ≤ (v.data.map Char.toLower).length := pyStripChars_length_le _
          _ = v.data.length := List.length_map _ _
      rw [if_pos (lt_of_le_of_lt hle hlen)]
  · intro v hpat
    unfold is_placeholder
    by_cases hv : v = ""
    · rw [if_pos hv]
    · rw [if_neg hv]
      by_cases hlen : (pyStrip (pyLower v)).length < 8
      · rw [if_pos hlen]
      · rw [if_neg hlen]
        exact hpat
  · intro env verified res h e he
    rcases discover_fresh_eq env verified res h with ⟨configs, hcfg, rfl⟩
    have he2 : e ∈ discoveredEntries env configs verified :=
      ((stableSort_perm _ _).mem_iff).1 he
    rcases discoveredEntries_key env configs verified e he2 with ⟨c, hc, hkey⟩
    rw [hkey]
    exact configured_keys_not_placeholder env configs hcfg c hc

/-- C5 (amended): when no model-override environment variable is configured,
all entry ids of a discovery snapshot are pairwise distinct — the scan
registers at most one slot-1 credential per provider type, the per-type
catalog ids are distinct, and the four type prefixes never collide. -/
theorem C5_ids_distinct_without_override (env : List (String × String))
    (verified : List (String × AvailabilityStatus)) (res : List LLMProvider)
    (hg : envModelFor env "gemini" = none)
    (ho : envModelFor env "openai" = none)
    (ha : envModelFor env "anthropic" = none)
    (hh : envModelFor env "huggingface" = none)
    (h : discover_fresh env verified = .ok res) :
    (res.map (fun p => p.id)).Nodup := by
  rcases discover_fresh_eq env verified res h with ⟨configs, hcfg, rfl⟩
  have hperm := ((stableSort_perm sortKeyLt (discoveredEntries env configs verified)).map
    (fun p => p.id))
  rw [hperm.nodup_iff]
  rw [discoveredEntries_ids]
  rcases get_configured_keys_ok env configs hcfg with ⟨g, o, a, hf, hsg, hso, hsa, hsh, rfl⟩
  rw [List.flatMap_append, List.flatMap_append, List.flatMap_append]
  have hfull : (catalogIds "gemini" ++ catalogIds "openai" ++ catalogIds "anthropic" ++
      catalogIds "huggingface").Nodup := by decide
  have hpart : ∀ (t : String) (r : List (Nat × String)),
      (r = [] ∨ ∃ v, r = [(1, v)]) → envModelFor env t = none →
      ((addConfigs t r).flatMap (fun c => (candidatesFor env c.ptype).map
        (fun cand => providerId c.ptype c.num cand.1))).Sublist (catalogIds t) := by
    intro t r hr hov
    rcases hr with rfl | ⟨v, rfl⟩
    · exact List.nil_sublist _
    · have h1 : addConfigs t [(1, v)] = [⟨t, 1, v⟩] := rfl
      rw [h1, List.flatMap_cons, List.flatMap_nil, List.append_nil]
      have h2 : (⟨t, 1, v⟩ : PConfig).ptype = t := rfl
      have h3 : (⟨t, 1, v⟩ : PConfig).num = 1 := rfl
      rw [h2, h3, candidatesFor_no_override env t hov]
      exact List.Sublist.refl _
  have hsub : ((addConfigs "gemini" g).flatMap (fun c => (candidatesFor env c.ptype).map
        (fun cand => providerId c.ptype c.num cand.1)) ++
      (addConfigs "openai" o).flatMap (fun c => (candidatesFor env c.ptype).map
        (fun cand => providerId c.ptype c.num cand.1)) ++
      (addConfigs "anthropic" a).flatMap (fun c => (candidatesFor env c.ptype).map
        (fun cand => providerId c.ptype c.num cand.1)) ++
      (addConfigs "huggingface" hf).flatMap (fun c => (candidatesFor env c.ptype).map
        (fun cand => providerId c.ptype c.num cand.1))).Sublist
      (catalogIds "gemini" ++ catalogIds "openai" ++ catalogIds "anthropic" ++
        catalogIds "huggingface") := by
    refine List.Sublist.append (List.Sublist.append (List.Sublist.append ?_ ?_) ?_) ?_
    · exact hpart "gemini" g (scan_env_for_keys_ok _ _ _ hsg).1 hg
    · exact hpart "openai" o (scan_env_for_keys_ok _ _ _ hso).1 ho
    · exact hpart "anthropic" a (scan_env_for_keys_ok _ _ _ hsa).1 ha
    · exact hpart "huggingface" hf (scan_env_for_keys_ok _ _ _ hsh).1 hh
  exact hfull.sublist hsub

/-- C5 (counterexample): with `MODEL_NAME=x/gemini-flash-latest` alongside a
gemini credential, the override model's sanitized trailing segment collides
with the catalog's `gemini-flash-latest`, and one discovery snapshot contains
the id `gemini_1_gemini_flash_latest` twice — the ids are not pairwise
distinct. -/
theorem C5_override_id_collision_counterexample :
    (discover_fresh [("GEMINI_API_KEY", "validlongkey12345"),
        ("MODEL_NAME", "x/gemini-flash-latest")] []).map
      (fun l => l.map (fun p => p.id)) =
      .ok ["gemini_1_gemini_flash_latest", "gemini_1_gemini_25_flash",
           "gemini_1_gemini_flash_latest", "gemini_1_gemini_25_pro"] ∧
    ¬ (["gemini_1_gemini_flash_latest", "gemini_1_gemini_25_flash",
        "gemini_1_gemini_flash_latest", "gemini_1_gemini_25_pro"] : List String).Nodup := by
  constructor
  · decide
  · decide

/-- C6 (amended): a fresh discovery snapshot is sorted by the ranking rule —
availability rank, then latency, then provider type, then label — and
consequently, at construction time, no usable (AVAILABLE or ASSUMED) entry
appears after a non-usable one. -/
theorem C6_ranked_at_discovery (env : List (String × String))
    (verified : List (String × AvailabilityStatus)) (res : List LLMProvider)
    (h : discover_fresh env verified = .ok res) :
    res.Pairwise (fun a b => sortKey a ≤ sortKey b) ∧
    res.Pairwise (fun a b => usableStatus b.status = true → usableStatus a.status = true) := by
  rcases discover_fresh_eq env verified res h with ⟨configs, _, rfl⟩
  have hp : (stableSort sortKeyLt (discoveredEntries env configs verified)).Pairwise
      (fun a b => sortKey a ≤ sortKey b) :=
    pairwise_stableSort sortKey (discoveredEntries env configs verified)
  refine ⟨hp, hp.imp ?_⟩
  intro a b hab hub
  exact usable_of_order_zero _ (Nat.le_zero.1
    ((order_zero_of_usable _ hub) ▸ availabilityOrder_mono a b hab))

/-- C6 (counterexample): reads do not re-sort. Starting from a snapshot in
ranked order, the router's own RATE_LIMITED patch of the first entry leaves
the stored order unchanged, and `get_all_providers` returns it as is — an
ASSUMED (usable) entry now appears after a RATE_LIMITED entry in the list as
read. -/
theorem C6_patched_snapshot_unsorted_counterexample :
    stRanked.lastDiscovered.Pairwise (fun a b => sortKey a ≤ sortKey b) ∧
    ((update_provider_status "gemini_1_flash" .rate_limited
        (some "Rate limit exceeded during analysis") stRanked).2.lastDiscovered.map
      (fun p => (p.id, usableStatus p.status))) =
      [("gemini_1_flash", false), ("openai_1_gpt_4o_mini", true)] ∧
    get_all_providers (update_provider_status "gemini_1_flash" .rate_limited
        (some "Rate limit exceeded during analysis") stRanked).2 =
      .ok (update_provider_status "gemini_1_flash" .rate_limited
        (some "Rate limit exceeded during analysis") stRanked).2.lastDiscovered := by
  refine ⟨by decide, by decide, by decide⟩

/-- C1 (counterexample): the fallback list excludes ASSUMED entries. With the
primary rate-limited, exactly one other usable entry present (ASSUMED), and a
backend oracle under which that entry's call would succeed, the router raises
the aggregated rate-limit error after one attempt instead of returning the
fallback's result — the usable-but-ASSUMED candidate is never called. -/
theorem C1_assumed_excluded_counterexample :
    (stTwo.lastDiscovered.filter
      (fun p => decide (p.id ≠ "gemini_1_flash") && usableStatus p.status)) =
      [provOpenaiAssumed] ∧
    oRateLimitGemini.call "openai_1_gpt_4o_mini" = .success ⟨1⟩ ∧
    (analyze_with_provider (some "gemini_1_flash") stTwo oRateLimitGemini).result =
      .error (.rateLimitError
        "Rate limit exceeded for gemini_1_flash. Tried 1 provider(s). Please try again later.") ∧
    (analyze_with_provider (some "gemini_1_flash") stTwo oRateLimitGemini).events =
      [.backendCall "gemini_1_flash"] := by
  refine ⟨by decide, by decide, by decide, by decide⟩

/-- C3 (counterexample): promotion after a direct successful call is not
remembered. An ASSUMED gemini entry skips verify-on-first-use; its successful
call promotes it to AVAILABLE in the snapshot but writes nothing to the
verified-models map, so a subsequent forced discovery cycle rebuilds the same
entry as ASSUMED again. -/
theorem C3_direct_promotion_not_remembered_counterexample :
    (analyze_with_provider (some "gemini_1_gemini_flash_latest") stGem oAllOk).result =
      .ok ⟨7⟩ ∧
    (refreshView gFlash
      (analyze_with_provider (some "gemini_1_gemini_flash_latest") stGem oAllOk).state).status =
      .available ∧
    (analyze_with_provider (some "gemini_1_gemini_flash_latest") stGem oAllOk).state.verifiedModels =
      [] ∧
    (discover_providers true 100
        (analyze_with_provider (some "gemini_1_gemini_flash_latest") stGem oAllOk).state).map
      (fun r => r.1.map (fun p => (p.id, p.status))) =
      .ok [("gemini_1_gemini_flash_latest", .assumed), ("gemini_1_gemini_25_flash", .assumed),
           ("gemini_1_gemini_25_pro", .assumed)] := by
  refine ⟨by decide, by decide, by decide, by decide⟩

/-- Witness for C1: concrete two-entry state where the gemini primary
rate-limits and the AVAILABLE openai fallback succeeds. -/
theorem C1_available_fallback_succeeds_witness :
    (analyze_with_provider (some provGeminiAvail.id) stTwoAvail oRateLimitGemini).result =
      .ok ⟨1⟩ :=
  (C1_available_fallback_succeeds provGeminiAvail provOpenaiAvail stTwoAvail oRateLimitGemini
    ⟨1⟩ "429 quota exceeded" rfl (by decide) (by decide) rfl rfl (by decide) (by decide)
    (by decide) (by decide)).1

/-- Witness for C2: two usable entries and no id raise the ambiguous-selection
error without touching the state. -/
theorem C2_selection_errors_before_network_witness :
    analyze_with_provider none stTwo oAllOk =
      { result := .error (.selectionError (ambiguousMsg
          (List.filter (fun p => usableStatus p.status) [provGeminiAvail, provOpenaiAssumed]))),
        state := stTwo, events := [] } :=
  (C2_selection_errors_before_network stTwo oAllOk [provGeminiAvail, provOpenaiAssumed]
    (by decide)).2.2.2 (by decide)

/-- Witness for C3: the ASSUMED openai entry, verified and called
successfully, yields the analysis result. -/
theorem C3_verified_promotion_remembered_witness :
    (call_provider provOpenaiAssumed stOpenaiFirst oAllOk).result = .ok ⟨7⟩ :=
  (C3_verified_promotion_remembered provOpenaiAssumed stOpenaiFirst oAllOk ⟨7⟩
    (by decide) rfl (Or.inl rfl) rfl rfl).1

/-- Witness for C5: the snapshot discovered from a single gemini credential
has pairwise distinct ids. -/
theorem C5_ids_distinct_without_override_witness :
    (geminiSnapshot.map (fun p => p.id)).Nodup :=
  C5_ids_distinct_without_override envGemini [] geminiSnapshot (by decide) (by decide)
    (by decide) (by decide) (by decide)

/-- Witness for C6: the snapshot discovered from a single gemini credential
is ranked. -/
theorem C6_ranked_at_discovery_witness :
    geminiSnapshot.Pairwise (fun a b => sortKey a ≤ sortKey b) ∧
    geminiSnapshot.Pairwise
      (fun a b => usableStatus b.status = true → usableStatus a.status = true) :=
  C6_ranked_at_discovery envGemini [] geminiSnapshot (by decide)

/-- Witness for C7: a generic backend failure on the concrete AVAILABLE
gemini primary propagates with a single call event and no state change. -/
theorem C7_non_ratelimit_propagates_without_fallback_witness :
    execute_with_fallback provGeminiAvail [provGeminiAvail] stTwo oCallFail =
      { result := .error (.callError "boom"), state := stTwo,
        events := [.backendCall provGeminiAvail.id] } :=
  C7_non_ratelimit_propagates_without_fallback provGeminiAvail [provGeminiAvail] stTwo
    oCallFail "boom" (by decide) rfl rfl rfl

/-- Witness for C9: a seven-character value is classified a placeholder. -/
theorem C9_placeholder_never_registered_witness :
    is_placeholder "short12" = true :=
  C9_placeholder_never_registered.1 "short12" (by decide)

/-- Witness for C10: the ASSUMED openai entry under a failing probe performs
exactly one verify event. -/
theorem C10_gemini_skips_verification_witness :
    (verify_on_first_use provOpenaiAssumed stOpenaiFirst oVerifyFail).events =
      [.verifyProbe "openai_1_gpt_4o_mini"] :=
  ((C10_gemini_skips_verification provOpenaiAssumed stOpenaiFirst oVerifyFail
    (by decide) rfl).2 (Or.inl rfl)).1
